import Mathlib

/-!
Shallow embedding of the Ahmedabad geo-thought-flow dashboard core
(`src/pages/Index.tsx`, with the UI guards of `src/components/ChatPanel.tsx`
and `src/components/WorkflowStep.tsx`).

The stateful React component is embedded as an explicit application state
(`AppState`) together with deterministic handler functions.  Each `setTimeout`
callback is modelled by recording a pending timer in the state when it is
scheduled and by a separate "timer fires" event that performs the callback's
update.  A run of the UI is a list of events folded over the initial state.
-/

namespace GeoFlow

/-- Status of a workflow step (`'pending' | 'executing' | 'completed' | 'error'`). -/
inductive StepStatus : Type
  | pending
  | executing
  | completed
  | error
deriving DecidableEq, Repr

/-- Aggregate status of a query session (`'processing' | 'completed' | 'error'`). -/
inductive SessionStatus : Type
  | processing
  | completed
  | error
deriving DecidableEq, Repr

/-- A scalar parameter value: the templates use string and numeric literals. -/
inductive ParamValue : Type
  | str (s : String)
  | num (q : ℚ)
deriving DecidableEq, Repr

/-- A parameter mapping, `Record<string, any>` in the source, as an ordered
key/value list. -/
abbrev Params := List (String × ParamValue)

/-- The constant result payload attached on step completion. -/
structure StepResult : Type where
  message : String
  data : String
deriving DecidableEq, Repr

/-- `WorkflowStep` record from the type declarations in the repository. -/
structure WorkflowStep : Type where
  id : String
  operation : String
  input : String
  parameters : Params
  explanation : String
  status : StepStatus
  result : Option StepResult
  editable : Bool
deriving DecidableEq, Repr

/-- `GeoQuery` record: a query session. -/
structure GeoQuery : Type where
  id : String
  query : String
  timestamp : Nat
  steps : List WorkflowStep
  status : SessionStatus
deriving DecidableEq, Repr

/-- Map layer categories (`'flood-risk' | 'green-space' | 'heat-island' | 'urban-boundary'`). -/
inductive LayerType : Type
  | floodRisk
  | greenSpace
  | heatIsland
  | urbanBoundary
deriving DecidableEq, Repr

/-- `MapLayer` record; the `data` payload is always the constant empty feature
list in this codebase, embedded as a list that is always empty. -/
structure MapLayer : Type where
  id : String
  name : String
  type : LayerType
  data : List Unit
  visible : Bool
  color : String
deriving DecidableEq, Repr

/-- Whether the first list occurs at the head of the second. -/
def listStartsWith : List Char → List Char → Bool
  | [], _ => true
  | _ :: _, [] => false
  | a :: as, b :: bs => a == b && listStartsWith as bs

/-- Whether the first list occurs contiguously anywhere in the second. -/
def listContainsSub (needle : List Char) : List Char → Bool
  | [] => needle.isEmpty
  | c :: rest => listStartsWith needle (c :: rest) || listContainsSub needle rest

/-- The character list of `s.toLowerCase()`. -/
def toLowerData (s : String) : List Char :=
  s.data.map Char.toLower

/-- `query.toLowerCase().includes(kw)` as used throughout `Index.tsx`
(every keyword literal in the source is already lower case). -/
def lowerIncludes (query kw : String) : Bool :=
  listContainsSub kw.data (toLowerData query)

/-- `generateWorkflowSteps` from `Index.tsx`: keyword-matched constant
templates, first-match-wins. -/
def generateWorkflowSteps (query : String) : List WorkflowStep :=
  if lowerIncludes query "flood" then
    [ { id := "step-1"
        operation := "Data Collection"
        input := "Ahmedabad elevation data from SRTM"
        parameters := [("resolution", ParamValue.str "30m"),
                       ("bounds", ParamValue.str "ahmedabad_boundary")]
        explanation := "Collect digital elevation model to understand terrain and water flow patterns"
        status := StepStatus.pending
        result := none
        editable := true },
      { id := "step-2"
        operation := "Hydrological Analysis"
        input := "DEM + precipitation data"
        parameters := [("rainfall_threshold", ParamValue.str "100mm"),
                       ("buffer_distance", ParamValue.str "500m")]
        explanation := "Analyze water accumulation areas and drainage patterns during heavy rainfall"
        status := StepStatus.pending
        result := none
        editable := true },
      { id := "step-3"
        operation := "Risk Zone Classification"
        input := "Flow accumulation + historical flood data"
        parameters := [("risk_levels", ParamValue.num 3),
                       ("confidence_threshold", ParamValue.num (mkRat 8 10))]
        explanation := "Classify areas into high, medium, and low flood risk zones based on multiple factors"
        status := StepStatus.pending
        result := none
        editable := true } ]
  else if lowerIncludes query "park" || lowerIncludes query "green" then
    [ { id := "step-1"
        operation := "Green Space Detection"
        input := "Sentinel-2 satellite imagery"
        parameters := [("ndvi_threshold", ParamValue.num (mkRat 4 10)),
                       ("min_area", ParamValue.str "1000m2")]
        explanation := "Use NDVI to identify vegetated areas and filter by minimum size"
        status := StepStatus.pending
        result := none
        editable := true },
      { id := "step-2"
        operation := "Proximity Analysis"
        input := "Green spaces + reference point"
        parameters := [("search_radius", ParamValue.str "2000m"),
                       ("transport_mode", ParamValue.str "walking")]
        explanation := "Calculate accessibility to green spaces within walking distance"
        status := StepStatus.pending
        result := none
        editable := true } ]
  else if lowerIncludes query "heat" then
    [ { id := "step-1"
        operation := "Land Surface Temperature"
        input := "Landsat thermal bands"
        parameters := [("date_range", ParamValue.str "2023-04-01_2023-06-30"),
                       ("cloud_cover", ParamValue.num 20)]
        explanation := "Calculate land surface temperature from thermal infrared imagery"
        status := StepStatus.pending
        result := none
        editable := true },
      { id := "step-2"
        operation := "Urban Heat Island Detection"
        input := "LST + land cover classification"
        parameters := [("temperature_threshold", ParamValue.str "35°C"),
                       ("urban_buffer", ParamValue.str "1km")]
        explanation := "Identify areas with significantly higher temperatures than surroundings"
        status := StepStatus.pending
        result := none
        editable := true } ]
  else
    []

/-- Optional-field updates record for a step, as TypeScript builds for the
`updates` argument of `handleEditStep`: a present field overrides the step's
field, an absent field leaves it unchanged (JS object spread
`\x7b...step, ...updates\x7d` is shallow). -/
structure StepUpdates : Type where
  id : Option String
  operation : Option String
  input : Option String
  parameters : Option Params
  explanation : Option String
  status : Option StepStatus
  result : Option (Option StepResult)
  editable : Option Bool
deriving DecidableEq, Repr

/-- The spread `\x7b ...step, ...updates \x7d` applied to a step. -/
def applyUpdates (s : WorkflowStep) (u : StepUpdates) : WorkflowStep :=
  { id := u.id.getD s.id
    operation := u.operation.getD s.operation
    input := u.input.getD s.input
    parameters := u.parameters.getD s.parameters
    explanation := u.explanation.getD s.explanation
    status := u.status.getD s.status
    result := u.result.getD s.result
    editable := u.editable.getD s.editable }

/-- The updates object actually sent by the step card UI
(`WorkflowStep.tsx` `handleSaveEdit`): only the parameters field. -/
def paramsOnlyUpdates (ps : Params) : StepUpdates :=
  { id := none, operation := none, input := none, parameters := some ps
    explanation := none, status := none, result := none, editable := none }

/-- The whole application state of the `Index` component, plus the pending
`setTimeout` callbacks.  A step timer is identified by the `(queryId, stepId)`
pair its callback closes over; a workflow timer closes over the query id and
the query text snapshot used to derive the map layer. -/
structure AppState : Type where
  queries : List GeoQuery
  mapLayers : List MapLayer
  stepTimers : List (String × String)
  workflowTimers : List (String × String)
deriving DecidableEq, Repr

/-- The component's initial state: empty lists, no timers. -/
def initState : AppState :=
  { queries := [], mapLayers := [], stepTimers := [], workflowTimers := [] }

/-- `handleSubmitQuery`: appends a new session with generated steps and
status `processing`.  The fresh id and the `Date.now()` timestamp are inputs
of the model. -/
def handleSubmitQuery (st : AppState) (id : String) (ts : Nat) (text : String) : AppState :=
  { st with
    queries := st.queries ++
      [ { id := id, query := text, timestamp := ts
          steps := generateWorkflowSteps text
          status := SessionStatus.processing } ] }

/-- The per-session part of `handleEditStep`: merge updates into the matching
step, unconditionally. -/
def editStepInQuery (stepId : String) (u : StepUpdates) (q : GeoQuery) : GeoQuery :=
  { q with steps := q.steps.map fun s => if s.id = stepId then applyUpdates s u else s }

/-- `handleEditStep` from `Index.tsx`. -/
def handleEditStep (st : AppState) (queryId stepId : String) (u : StepUpdates) : AppState :=
  { st with
    queries := st.queries.map fun q => if q.id = queryId then editStepInQuery stepId u q else q }

/-- The per-session part of the synchronous half of `handleExecuteStep`. -/
def setStepExecuting (stepId : String) (q : GeoQuery) : GeoQuery :=
  { q with steps := q.steps.map fun s =>
      if s.id = stepId then { s with status := StepStatus.executing } else s }

/-- `handleExecuteStep`, synchronous part: marks the step executing and
schedules the 2000 ms completion timer. -/
def handleExecuteStep (st : AppState) (queryId stepId : String) : AppState :=
  { st with
    queries := st.queries.map fun q => if q.id = queryId then setStepExecuting stepId q else q
    stepTimers := st.stepTimers ++ [(queryId, stepId)] }

/-- The constant result payload of the step-completion callback. -/
def stepResultPayload : StepResult :=
  { message := "Step completed successfully", data := "sample_output.geojson" }

/-- The per-session part of the step-completion callback. -/
def setStepCompleted (stepId : String) (q : GeoQuery) : GeoQuery :=
  { q with steps := q.steps.map fun s =>
      if s.id = stepId then
        { s with status := StepStatus.completed, result := some stepResultPayload }
      else s }

/-- The `setTimeout` callback of `handleExecuteStep` firing: completes the
step and attaches the constant payload. -/
def fireStepTimer (st : AppState) (queryId stepId : String) : AppState :=
  { st with
    queries := st.queries.map fun q => if q.id = queryId then setStepCompleted stepId q else q
    stepTimers := st.stepTimers.erase (queryId, stepId) }

/-- Layer category derivation in the workflow-completion callback. -/
def deriveLayerType (text : String) : LayerType :=
  if lowerIncludes text "flood" then LayerType.floodRisk
  else if lowerIncludes text "green" then LayerType.greenSpace
  else LayerType.heatIsland

/-- Layer color derivation in the workflow-completion callback. -/
def deriveLayerColor (text : String) : String :=
  if lowerIncludes text "flood" then "#dc2626"
  else if lowerIncludes text "green" then "#16a34a"
  else "#f59e0b"

/-- The sample layer built by the workflow-completion callback; the fresh
layer id (`Date.now()`-based in the source) is an input of the model. -/
def sampleLayer (layerId text : String) : MapLayer :=
  { id := layerId
    name := "Result: " ++ text
    type := deriveLayerType text
    data := []
    visible := true
    color := deriveLayerColor text }

/-- `handleExecuteWorkflow`, synchronous part: looks the session up, returns
the state unchanged when it is absent, otherwise dispatches
`handleExecuteStep` for every step that was pending in the looked-up snapshot
and schedules the 5000 ms workflow timer. -/
def handleExecuteWorkflow (st : AppState) (queryId : String) : AppState :=
  match st.queries.find? (fun q => q.id == queryId) with
  | none => st
  | some q =>
    let st1 := (q.steps.filter (fun s => s.status == StepStatus.pending)).foldl
      (fun acc s => handleExecuteStep acc queryId s.id) st
    { st1 with workflowTimers := st1.workflowTimers ++ [(queryId, q.query)] }

/-- The `setTimeout` callback of `handleExecuteWorkflow` firing: marks the
session completed and appends the sample layer derived from the captured
query text. -/
def fireWorkflowTimer (st : AppState) (queryId text layerId : String) : AppState :=
  { st with
    queries := st.queries.map fun q =>
      if q.id = queryId then { q with status := SessionStatus.completed } else q
    mapLayers := st.mapLayers ++ [sampleLayer layerId text]
    workflowTimers := st.workflowTimers.erase (queryId, text) }

/-- The events a run of the UI can perform: the four handler entry points and
the firing of a scheduled timer.  A timer event for a timer that is not
pending does nothing (a `setTimeout` callback fires exactly once, and only
after being scheduled). -/
inductive Event : Type
  | submit (id : String) (ts : Nat) (text : String)
  | edit (queryId stepId : String) (u : StepUpdates)
  | execStep (queryId stepId : String)
  | stepDone (queryId stepId : String)
  | execWorkflow (queryId : String)
  | workflowDone (queryId text layerId : String)
deriving DecidableEq

/-- One event applied to the state. -/
def applyEvent (st : AppState) : Event → AppState
  | Event.submit id ts text => handleSubmitQuery st id ts text
  | Event.edit qId sId u => handleEditStep st qId sId u
  | Event.execStep qId sId => handleExecuteStep st qId sId
  | Event.stepDone qId sId =>
      if (qId, sId) ∈ st.stepTimers then fireStepTimer st qId sId else st
  | Event.execWorkflow qId => handleExecuteWorkflow st qId
  | Event.workflowDone qId text layerId =>
      if (qId, text) ∈ st.workflowTimers then fireWorkflowTimer st qId text layerId else st

/-- A run: events folded over a state. -/
def runEvents (st : AppState) (evs : List Event) : AppState :=
  evs.foldl applyEvent st

/-- `ChatPanel.tsx` guard: the Execute Complete Workflow control is rendered
only when the session has at least one step and is still processing. -/
def showExecuteWorkflowButton (q : GeoQuery) : Bool :=
  decide (0 < q.steps.length) && (q.status == SessionStatus.processing)

/-- Whether an event is an `editStep` call. -/
def isEditEvent : Event → Bool
  | Event.edit _ _ _ => true
  | _ => false

/-- Whether an event is an `executeWorkflow` call. -/
def isExecWorkflowEvent : Event → Bool
  | Event.execWorkflow _ => true
  | _ => false

/-- No step and no session in the state carries the `error` status. -/
def stateNoError (st : AppState) : Prop :=
  ∀ q ∈ st.queries, q.status ≠ SessionStatus.error ∧
    ∀ s ∈ q.steps, s.status ≠ StepStatus.error

/-- The session fields that every operation preserves: identity fields are
unchanged and a completed aggregate status stays completed. -/
def SessionPreserved (q q' : GeoQuery) : Prop :=
  q'.id = q.id ∧ q'.query = q.query ∧ q'.timestamp = q.timestamp ∧
  (q.status = SessionStatus.completed → q'.status = SessionStatus.completed)

/-- End-to-end scenario A: submit the flood query, execute the workflow, let
the three step timers and then the workflow timer fire (their real firing
order: 2000 ms timers in scheduling order, then the 5000 ms timer). -/
def scenarioAEvents : List Event :=
  [ Event.submit "q1" 0 "Find flood-risk zones near Sabarmati River",
    Event.execWorkflow "q1",
    Event.stepDone "q1" "step-1",
    Event.stepDone "q1" "step-2",
    Event.stepDone "q1" "step-3",
    Event.workflowDone "q1" "Find flood-risk zones near Sabarmati River" "layer-1" ]

/-- Scenario B continued with a direct `executeWorkflow` call on the
zero-step session and its timer firing. -/
def scenarioBEvents : List Event :=
  [ Event.submit "q1" 0 "hello world",
    Event.execWorkflow "q1",
    Event.workflowDone "q1" "hello world" "layer-1" ]

/-- A small concrete step used to instantiate universally quantified
theorems. -/
def wStep : WorkflowStep :=
  { id := "s1", operation := "Op", input := "In"
    parameters := [("p", ParamValue.num 1)], explanation := "Ex"
    status := StepStatus.pending, result := none, editable := true }

/-- A small concrete session holding `wStep`. -/
def wQuery : GeoQuery :=
  { id := "q1", query := "x", timestamp := 0, steps := [wStep]
    status := SessionStatus.processing }

/-- A small concrete application state holding `wQuery`. -/
def wState : AppState :=
  { queries := [wQuery], mapLayers := [], stepTimers := [], workflowTimers := [] }

/-- A completed variant of `wStep`. -/
def wStepCompleted : WorkflowStep :=
  { wStep with status := StepStatus.completed }

/-- A completed session holding `wStepCompleted`. -/
def wQueryCompleted : GeoQuery :=
  { id := "q1", query := "x", timestamp := 0, steps := [wStepCompleted]
    status := SessionStatus.completed }

/-- A state holding the completed session `wQueryCompleted`. -/
def wStateCompleted : AppState :=
  { queries := [wQueryCompleted], mapLayers := [], stepTimers := [], workflowTimers := [] }

/-! ## Helper lemmas -/

theorem getD_idem {α : Type} (o : Option α) (a : α) : o.getD (o.getD a) = o.getD a := by
  cases o <;> rfl

theorem applyUpdates_idem (s : WorkflowStep) (u : StepUpdates) :
    applyUpdates (applyUpdates s u) u = applyUpdates s u := by
  simp only [applyUpdates, getD_idem]

theorem editStepInQuery_id (stepId : String) (u : StepUpdates) (q : GeoQuery) :
    (editStepInQuery stepId u q).id = q.id := rfl

theorem setStepExecuting_id (stepId : String) (q : GeoQuery) :
    (setStepExecuting stepId q).id = q.id := rfl

theorem setStepCompleted_id (stepId : String) (q : GeoQuery) :
    (setStepCompleted stepId q).id = q.id := rfl

theorem editStepInQuery_idem (stepId : String) (u : StepUpdates) (q : GeoQuery) :
    editStepInQuery stepId u (editStepInQuery stepId u q) = editStepInQuery stepId u q := by
  unfold editStepInQuery
  simp only [List.map_map, GeoQuery.mk.injEq, true_and, and_true]
  refine List.map_congr_left fun s _ => ?_
  by_cases h : s.id = stepId
  · by_cases h2 : (applyUpdates s u).id = stepId
    · simp [Function.comp, h, h2, applyUpdates_idem]
    · simp [Function.comp, h, h2]
  · simp [Function.comp, h]

theorem generateWorkflowSteps_pending_editable (text : String) :
    ∀ s ∈ generateWorkflowSteps text,
      s.status = StepStatus.pending ∧ s.editable = true := by
  unfold generateWorkflowSteps
  split
  · decide
  · split
    · decide
    · split
      · decide
      · decide

theorem noError_setStepExecuting (stepId : String) (q : GeoQuery)
    (h : ∀ s ∈ q.steps, s.status ≠ StepStatus.error) :
    ∀ s ∈ (setStepExecuting stepId q).steps, s.status ≠ StepStatus.error := by
  intro s hs
  unfold setStepExecuting at hs
  simp only [List.mem_map] at hs
  obtain ⟨s0, hs0, rfl⟩ := hs
  by_cases hid : s0.id = stepId
  · simp [hid]
  · simpa [hid] using h s0 hs0

theorem noError_setStepCompleted (stepId : String) (q : GeoQuery)
    (h : ∀ s ∈ q.steps, s.status ≠ StepStatus.error) :
    ∀ s ∈ (setStepCompleted stepId q).steps, s.status ≠ StepStatus.error := by
  intro s hs
  unfold setStepCompleted at hs
  simp only [List.mem_map] at hs
  obtain ⟨s0, hs0, rfl⟩ := hs
  by_cases hid : s0.id = stepId
  · simp [hid]
  · simpa [hid] using h s0 hs0

theorem noError_handleSubmitQuery (st : AppState) (id : String) (ts : Nat) (text : String)
    (h : stateNoError st) : stateNoError (handleSubmitQuery st id ts text) := by
  intro q hq
  unfold handleSubmitQuery at hq
  rcases List.mem_append.mp hq with h1 | h2
  · exact h q h1
  · simp only [List.mem_singleton] at h2
    subst h2
    refine ⟨by simp, ?_⟩
    intro s hs
    rw [(generateWorkflowSteps_pending_editable text s hs).1]
    simp

theorem noError_handleExecuteStep (st : AppState) (queryId stepId : String)
    (h : stateNoError st) : stateNoError (handleExecuteStep st queryId stepId) := by
  intro q hq
  unfold handleExecuteStep at hq
  simp only [List.mem_map] at hq
  obtain ⟨q0, hq0, rfl⟩ := hq
  by_cases hid : q0.id = queryId
  · simp only [hid, if_pos]
    exact ⟨(h q0 hq0).1, noError_setStepExecuting stepId q0 (h q0 hq0).2⟩
  · simpa [hid] using h q0 hq0

theorem noError_fireStepTimer (st : AppState) (queryId stepId : String)
    (h : stateNoError st) : stateNoError (fireStepTimer st queryId stepId) := by
  intro q hq
  unfold fireStepTimer at hq
  simp only [List.mem_map] at hq
  obtain ⟨q0, hq0, rfl⟩ := hq
  by_cases hid : q0.id = queryId
  · simp only [hid, if_pos]
    exact ⟨(h q0 hq0).1, noError_setStepCompleted stepId q0 (h q0 hq0).2⟩
  · simpa [hid] using h q0 hq0

theorem noError_execFold (l : List WorkflowStep) (queryId : String) :
    ∀ st : AppState, stateNoError st →
      stateNoError (l.foldl (fun acc s => handleExecuteStep acc queryId s.id) st) := by
  induction l with
  | nil => exact fun st h => h
  | cons s l ih =>
    intro st h
    exact ih _ (noError_handleExecuteStep st queryId s.id h)

theorem noError_handleExecuteWorkflow (st : AppState) (queryId : String)
    (h : stateNoError st) : stateNoError (handleExecuteWorkflow st queryId) := by
  unfold handleExecuteWorkflow
  cases hfind : st.queries.find? (fun q => q.id == queryId) with
  | none => exact h
  | some q0 =>
    intro q hq
    exact noError_execFold _ queryId st h q hq

theorem noError_fireWorkflowTimer (st : AppState) (queryId text layerId : String)
    (h : stateNoError st) : stateNoError (fireWorkflowTimer st queryId text layerId) := by
  intro q hq
  unfold fireWorkflowTimer at hq
  simp only [List.mem_map] at hq
  obtain ⟨q0, hq0, rfl⟩ := hq
  by_cases hid : q0.id = queryId
  · simp only [hid, if_pos]
    exact ⟨by simp, (h q0 hq0).2⟩
  · simpa [hid] using h q0 hq0

theorem noError_applyEvent (st : AppState) (e : Event)
    (he : isEditEvent e = false) (h : stateNoError st) :
    stateNoError (applyEvent st e) := by
  cases e with
  | submit id ts text => exact noError_handleSubmitQuery st id ts text h
  | edit qId sId u => simp [isEditEvent] at he
  | execStep qId sId => exact noError_handleExecuteStep st qId sId h
  | stepDone qId sId =>
    simp only [applyEvent]
    split
    · exact noError_fireStepTimer st qId sId h
    · exact h
  | execWorkflow qId => exact noError_handleExecuteWorkflow st qId h
  | workflowDone qId text lId =>
    simp only [applyEvent]
    split
    · exact noError_fireWorkflowTimer st qId text lId h
    · exact h

theorem noError_runEvents :
    ∀ (evs : List Event) (st : AppState), stateNoError st →
      (∀ e ∈ evs, isEditEvent e = false) → stateNoError (runEvents st evs) := by
  intro evs
  induction evs with
  | nil => exact fun st h _ => h
  | cons e evs ih =>
    intro st h hall
    exact ih _ (noError_applyEvent st e (hall e (by simp)) h)
      fun e' he' => hall e' (by simp [he'])

theorem stateNoError_init : stateNoError initState := by
  intro q hq
  cases hq

theorem noLayer_applyEvent (st : AppState) (e : Event)
    (he : isExecWorkflowEvent e = false)
    (ht : st.workflowTimers = []) (hm : st.mapLayers = []) :
    (applyEvent st e).workflowTimers = [] ∧ (applyEvent st e).mapLayers = [] := by
  cases e with
  | submit id ts text => exact ⟨ht, hm⟩
  | edit qId sId u => exact ⟨ht, hm⟩
  | execStep qId sId => exact ⟨ht, hm⟩
  | stepDone qId sId =>
    simp only [applyEvent]
    split
    · exact ⟨ht, hm⟩
    · exact ⟨ht, hm⟩
  | execWorkflow qId => simp [isExecWorkflowEvent] at he
  | workflowDone qId text lId =>
    simp only [applyEvent]
    split
    · rename_i hmem
      rw [ht] at hmem
      cases hmem
    · exact ⟨ht, hm⟩

theorem noLayer_runEvents :
    ∀ (evs : List Event) (st : AppState), st.workflowTimers = [] → st.mapLayers = [] →
      (∀ e ∈ evs, isExecWorkflowEvent e = false) →
      (runEvents st evs).workflowTimers = [] ∧ (runEvents st evs).mapLayers = [] := by
  intro evs
  induction evs with
  | nil => exact fun st ht hm _ => ⟨ht, hm⟩
  | cons e evs ih =>
    intro st ht hm hall
    obtain ⟨ht', hm'⟩ := noLayer_applyEvent st e (hall e (by simp)) ht hm
    exact ih _ ht' hm' fun e' he' => hall e' (by simp [he'])

theorem sessionPreserved_refl (q : GeoQuery) : SessionPreserved q q :=
  ⟨rfl, rfl, rfl, fun h => h⟩

theorem sessionPreserved_trans {q q' q'' : GeoQuery}
    (h1 : SessionPreserved q q') (h2 : SessionPreserved q' q'') :
    SessionPreserved q q'' := by
  obtain ⟨a1, b1, c1, d1⟩ := h1
  obtain ⟨a2, b2, c2, d2⟩ := h2
  exact ⟨a2.trans a1, b2.trans b1, c2.trans c1, fun h => d2 (d1 h)⟩

theorem sessionPreserved_editStepInQuery (stepId : String) (u : StepUpdates) (q : GeoQuery) :
    SessionPreserved q (editStepInQuery stepId u q) :=
  ⟨rfl, rfl, rfl, fun h => h⟩

theorem sessionPreserved_setStepExecuting (stepId : String) (q : GeoQuery) :
    SessionPreserved q (setStepExecuting stepId q) :=
  ⟨rfl, rfl, rfl, fun h => h⟩

theorem sessionPreserved_setStepCompleted (stepId : String) (q : GeoQuery) :
    SessionPreserved q (setStepCompleted stepId q) :=
  ⟨rfl, rfl, rfl, fun h => h⟩

theorem getElem?_map_preserved (f : GeoQuery → GeoQuery)
    (hf : ∀ q, SessionPreserved q (f q)) (l : List GeoQuery) (i : Nat) (q : GeoQuery)
    (hq : l[i]? = some q) :
    ∃ q', (l.map f)[i]? = some q' ∧ SessionPreserved q q' := by
  refine ⟨f q, ?_, hf q⟩
  rw [List.getElem?_map, hq]
  rfl

theorem execStep_getElem?_preserved (st : AppState) (queryId stepId : String)
    (i : Nat) (q : GeoQuery) (hq : st.queries[i]? = some q) :
    ∃ q', (handleExecuteStep st queryId stepId).queries[i]? = some q' ∧
      SessionPreserved q q' := by
  refine getElem?_map_preserved _ (fun q0 => ?_) st.queries i q hq
  by_cases h : q0.id = queryId
  · simp only [h, if_pos]
    exact sessionPreserved_setStepExecuting stepId q0
  · simp only [h, if_neg, ite_false]
    exact sessionPreserved_refl q0

theorem execFold_getElem?_preserved (queryId : String) :
    ∀ (l : List WorkflowStep) (st : AppState) (i : Nat) (q : GeoQuery),
      st.queries[i]? = some q →
      ∃ q', ((l.foldl (fun acc s => handleExecuteStep acc queryId s.id) st).queries[i]? =
          some q') ∧ SessionPreserved q q' := by
  intro l
  induction l with
  | nil => exact fun st i q hq => ⟨q, hq, sessionPreserved_refl q⟩
  | cons s l ih =>
    intro st i q hq
    obtain ⟨q1, hq1, hp1⟩ := execStep_getElem?_preserved st queryId s.id i q hq
    obtain ⟨q2, hq2, hp2⟩ := ih _ i q1 hq1
    exact ⟨q2, hq2, sessionPreserved_trans hp1 hp2⟩

/-! ## Claim theorems -/

/-- C1: the Template Selector is a pure function of the query text matching
the reference table first-match-wins on the lower-cased query: "flood" gives
the 3 flood steps in order, otherwise "park" or "green" gives the 2
green-space steps, otherwise "heat" gives the 2 heat-island steps, otherwise
the empty sequence; every returned step is pending and editable. -/
theorem C1_template_selector (q : String) :
    (lowerIncludes q "flood" = true →
      (generateWorkflowSteps q).map WorkflowStep.operation =
        ["Data Collection", "Hydrological Analysis", "Risk Zone Classification"]) ∧
    (lowerIncludes q "flood" = false →
      (lowerIncludes q "park" = true ∨ lowerIncludes q "green" = true) →
      (generateWorkflowSteps q).map WorkflowStep.operation =
        ["Green Space Detection", "Proximity Analysis"]) ∧
    (lowerIncludes q "flood" = false → lowerIncludes q "park" = false →
      lowerIncludes q "green" = false → lowerIncludes q "heat" = true →
      (generateWorkflowSteps q).map WorkflowStep.operation =
        ["Land Surface Temperature", "Urban Heat Island Detection"]) ∧
    (lowerIncludes q "flood" = false → lowerIncludes q "park" = false →
      lowerIncludes q "green" = false → lowerIncludes q "heat" = false →
      generateWorkflowSteps q = []) ∧
    (∀ s ∈ generateWorkflowSteps q,
      s.status = StepStatus.pending ∧ s.editable = true) := by
  refine ⟨?_, ?_, ?_, ?_, generateWorkflowSteps_pending_editable q⟩
  · intro hf
    simp [generateWorkflowSteps, hf]
  · rintro hf (hp | hg)
    · simp [generateWorkflowSteps, hf, hp]
    · simp [generateWorkflowSteps, hf, hg]
  · intro hf hp hg hh
    simp [generateWorkflowSteps, hf, hp, hg, hh]
  · intro hf hp hg hh
    simp [generateWorkflowSteps, hf, hp, hg, hh]

/-- Witness for C1 at concrete queries from each branch of the table. -/
theorem C1_template_selector_witness :
    (generateWorkflowSteps "Show FLOOD risk zones").map WorkflowStep.operation =
      ["Data Collection", "Hydrological Analysis", "Risk Zone Classification"] ∧
    (generateWorkflowSteps "any parks nearby").map WorkflowStep.operation =
      ["Green Space Detection", "Proximity Analysis"] ∧
    generateWorkflowSteps "hello world" = [] := by
  refine ⟨(C1_template_selector "Show FLOOD risk zones").1 (by decide), ?_, ?_⟩
  · exact (C1_template_selector "any parks nearby").2.1 (by decide) (Or.inl (by decide))
  · exact (C1_template_selector "hello world").2.2.2.1 (by decide) (by decide)
      (by decide) (by decide)

/-- C9: `editStep` is idempotent: applying the same updates twice to the same
step of the same session yields the same application state, hence the same
parameter mapping and the same whole step, as applying them once. -/
theorem C9_editStep_idempotent (st : AppState) (queryId stepId : String) (u : StepUpdates) :
    handleEditStep (handleEditStep st queryId stepId u) queryId stepId u =
      handleEditStep st queryId stepId u := by
  unfold handleEditStep
  simp only [List.map_map, AppState.mk.injEq, true_and, and_true]
  refine List.map_congr_left fun q _ => ?_
  by_cases h : q.id = queryId
  · simp [Function.comp, h, editStepInQuery_id, editStepInQuery_idem]
  · simp [Function.comp, h]

/-- C2: end-to-end scenario A.  Submitting the flood query creates a session
with 3 pending steps; after `executeWorkflow` and all timers firing, every
step is completed with the constant result payload, the session is completed,
and exactly one map layer is appended, with category flood-risk and color
"#dc2626". -/
theorem C2_scenario_A :
    ((runEvents initState
        [Event.submit "q1" 0 "Find flood-risk zones near Sabarmati River"]).queries.map
        fun q => (q.status, q.steps.map WorkflowStep.status)) =
      [(SessionStatus.processing,
        [StepStatus.pending, StepStatus.pending, StepStatus.pending])] ∧
    ((runEvents initState scenarioAEvents).queries.map fun q =>
        (q.status, q.steps.map fun s => (s.status, s.result))) =
      [(SessionStatus.completed,
        [(StepStatus.completed, some { message := "Step completed successfully",
                                       data := "sample_output.geojson" }),
         (StepStatus.completed, some { message := "Step completed successfully",
                                       data := "sample_output.geojson" }),
         (StepStatus.completed, some { message := "Step completed successfully",
                                       data := "sample_output.geojson" })])] ∧
    ((runEvents initState scenarioAEvents).mapLayers.map fun l => (l.type, l.color)) =
      [(LayerType.floodRisk, "#dc2626")] := by
  refine ⟨by decide, by decide, by decide⟩

/-- C8: for a query containing "park" but neither "flood" nor "green", the
steps come from the green-space template, yet the layer appended by the
workflow-completion callback has category heat-island and color "#f59e0b":
the layer-derivation table does not test "park". -/
theorem C8_park_layer_mismatch (text : String)
    (hpark : lowerIncludes text "park" = true)
    (hflood : lowerIncludes text "flood" = false)
    (hgreen : lowerIncludes text "green" = false) :
    (generateWorkflowSteps text).map WorkflowStep.operation =
      ["Green Space Detection", "Proximity Analysis"] ∧
    ∀ st qId lId,
      (fireWorkflowTimer st qId text lId).mapLayers =
        st.mapLayers ++
          [ { id := lId, name := "Result: " ++ text, type := LayerType.heatIsland
              data := [], visible := true, color := "#f59e0b" } ] := by
  constructor
  · simp [generateWorkflowSteps, hflood, hpark]
  · intro st qId lId
    simp [fireWorkflowTimer, sampleLayer, deriveLayerType, deriveLayerColor, hflood, hgreen]

/-- Witness for C8 at the suggested query "Locate parks within 2km of
Kankaria Lake". -/
theorem C8_park_layer_mismatch_witness :
    (generateWorkflowSteps "Locate parks within 2km of Kankaria Lake").map
        WorkflowStep.operation =
      ["Green Space Detection", "Proximity Analysis"] ∧
    (fireWorkflowTimer initState "q1" "Locate parks within 2km of Kankaria Lake"
        "layer-1").mapLayers =
      [ { id := "layer-1"
          name := "Result: Locate parks within 2km of Kankaria Lake"
          type := LayerType.heatIsland
          data := [], visible := true, color := "#f59e0b" } ] := by
  have h := C8_park_layer_mismatch "Locate parks within 2km of Kankaria Lake"
    (by decide) (by decide) (by decide)
  exact ⟨h.1, h.2 initState "q1" "layer-1"⟩

/-- C3: executing a pending step first marks it executing synchronously and
schedules its timer; the timer firing marks it completed and attaches the
constant result payload, with the step's parameter mapping (however it may
have been edited) left unchanged and irrelevant to the payload. -/
theorem C3_executeStep_pending (st : AppState) (queryId stepId : String)
    (i j : Nat) (q : GeoQuery) (s : WorkflowStep)
    (hq : st.queries[i]? = some q) (hqid : q.id = queryId)
    (hs : q.steps[j]? = some s) (hsid : s.id = stepId)
    (_hpending : s.status = StepStatus.pending) :
    ∃ q1 s1 q2 s2,
      (handleExecuteStep st queryId stepId).queries[i]? = some q1 ∧
      q1.steps[j]? = some s1 ∧
      s1.status = StepStatus.executing ∧
      (queryId, stepId) ∈ (handleExecuteStep st queryId stepId).stepTimers ∧
      (fireStepTimer (handleExecuteStep st queryId stepId) queryId stepId).queries[i]? =
        some q2 ∧
      q2.steps[j]? = some s2 ∧
      s2.status = StepStatus.completed ∧
      s2.result = some stepResultPayload ∧
      s2.parameters = s.parameters := by
  refine ⟨setStepExecuting stepId q,
    { s with status := StepStatus.executing },
    setStepCompleted stepId (setStepExecuting stepId q),
    { s with status := StepStatus.completed, result := some stepResultPayload },
    ?_, ?_, rfl, ?_, ?_, ?_, rfl, rfl, rfl⟩
  · simp [handleExecuteStep, List.getElem?_map, hq, hqid]
  · simp [setStepExecuting, List.getElem?_map, hs, hsid]
  · simp [handleExecuteStep]
  · simp [fireStepTimer, handleExecuteStep, List.getElem?_map, hq, setStepExecuting_id, hqid]
  · simp [setStepCompleted, setStepExecuting, List.getElem?_map, hs, hsid]

/-- Witness for C3 at a concrete pending step. -/
theorem C3_executeStep_pending_witness :
    ∃ q1 s1 q2 s2,
      (handleExecuteStep wState "q1" "s1").queries[0]? = some q1 ∧
      q1.steps[0]? = some s1 ∧
      s1.status = StepStatus.executing ∧
      ("q1", "s1") ∈ (handleExecuteStep wState "q1" "s1").stepTimers ∧
      (fireStepTimer (handleExecuteStep wState "q1" "s1") "q1" "s1").queries[0]? = some q2 ∧
      q2.steps[0]? = some s2 ∧
      s2.status = StepStatus.completed ∧
      s2.result = some stepResultPayload ∧
      s2.parameters = wStep.parameters :=
  C3_executeStep_pending wState "q1" "s1" 0 0 wQuery wStep
    (by decide) (by decide) (by decide) (by decide) (by decide)

/-- C4: the error status is unreachable.  In every state reached from the
empty initial state by any sequence of submitQuery, executeStep and
executeWorkflow calls with their timers firing in any order (every event
except an editStep call), no step and no session has the error status. -/
theorem C4_error_unreachable (evs : List Event)
    (h : ∀ e ∈ evs, isEditEvent e = false) :
    stateNoError (runEvents initState evs) :=
  noError_runEvents evs initState stateNoError_init h

/-- Witness for C4 on the scenario-A run. -/
theorem C4_error_unreachable_witness :
    (∀ e ∈ scenarioAEvents, isEditEvent e = false) ∧
    stateNoError (runEvents initState scenarioAEvents) :=
  ⟨by decide, C4_error_unreachable scenarioAEvents (by decide)⟩

/-- C5 counterexample: the session submitted from "hello world" has zero
steps, yet calling `executeWorkflow` on it and letting its timer fire appends
one map layer (with category heat-island and color "#f59e0b"), so a
MapLayerDescriptor IS produced, contradicting the claim. -/
theorem C5_counterexample :
    ((runEvents initState [Event.submit "q1" 0 "hello world"]).queries.map
        GeoQuery.steps) = [[]] ∧
    ((runEvents initState scenarioBEvents).mapLayers.map fun l => (l.type, l.color)) =
      [(LayerType.heatIsland, "#f59e0b")] := by
  refine ⟨by decide, by decide⟩

/-- C5 amended: for the zero-step "hello world" session no map layer is
produced by any sequence of operations that does not include an
`executeWorkflow` call, and the chat surface never offers the
execute-workflow control for that session (its step list is empty); a direct
`executeWorkflow` call, however, does append one layer (see the
counterexample). -/
theorem C5_amended (evs : List Event)
    (hnoexec : ∀ e ∈ evs, isExecWorkflowEvent e = false) :
    (runEvents initState evs).mapLayers = [] ∧
    ∀ q ∈ (runEvents initState [Event.submit "q1" 0 "hello world"]).queries,
      showExecuteWorkflowButton q = false := by
  refine ⟨(noLayer_runEvents evs initState rfl rfl hnoexec).2, by decide⟩

/-- Witness for C5 amended: a run that submits the session, edits and
executes a step and fires its timer produces no layer. -/
theorem C5_amended_witness :
    (∀ e ∈ [Event.submit "q1" 0 "hello world",
            Event.edit "q1" "s1" (paramsOnlyUpdates []),
            Event.execStep "q1" "s1",
            Event.stepDone "q1" "s1"], isExecWorkflowEvent e = false) ∧
    (runEvents initState
      [Event.submit "q1" 0 "hello world",
       Event.edit "q1" "s1" (paramsOnlyUpdates []),
       Event.execStep "q1" "s1",
       Event.stepDone "q1" "s1"]).mapLayers = [] :=
  ⟨by decide,
   (C5_amended
     [Event.submit "q1" 0 "hello world",
      Event.edit "q1" "s1" (paramsOnlyUpdates []),
      Event.execStep "q1" "s1",
      Event.stepDone "q1" "s1"] (by decide)).1⟩

/-- C6 counterexample: after executing and completing the first step of a
flood session, that step's status is completed, yet applying `editStep` with
a new parameter mapping changes its parameters — the claimed pending-only
editability does not hold. -/
theorem C6_counterexample :
    ((runEvents initState
        [Event.submit "q1" 0 "flood", Event.execStep "q1" "step-1",
         Event.stepDone "q1" "step-1"]).queries.map fun q =>
        q.steps.map fun s => (s.id, s.status, s.parameters)) =
      [[("step-1", StepStatus.completed,
          [("resolution", ParamValue.str "30m"),
           ("bounds", ParamValue.str "ahmedabad_boundary")]),
        ("step-2", StepStatus.pending,
          [("rainfall_threshold", ParamValue.str "100mm"),
           ("buffer_distance", ParamValue.str "500m")]),
        ("step-3", StepStatus.pending,
          [("risk_levels", ParamValue.num 3),
           ("confidence_threshold", ParamValue.num (mkRat 8 10))])]] ∧
    ((handleEditStep
        (runEvents initState
          [Event.submit "q1" 0 "flood", Event.execStep "q1" "step-1",
           Event.stepDone "q1" "step-1"])
        "q1" "step-1"
        (paramsOnlyUpdates [("resolution", ParamValue.str "60m")])).queries.map fun q =>
        q.steps.map fun s => (s.id, s.status, s.parameters)) =
      [[("step-1", StepStatus.completed,
          [("resolution", ParamValue.str "60m")]),
        ("step-2", StepStatus.pending,
          [("rainfall_threshold", ParamValue.str "100mm"),
           ("buffer_distance", ParamValue.str "500m")]),
        ("step-3", StepStatus.pending,
          [("risk_levels", ParamValue.num 3),
           ("confidence_threshold", ParamValue.num (mkRat 8 10))])]] := by
  refine ⟨by decide, by decide⟩

/-- C6 amended: `editStep` enforces no pending-only guard.  For every step of
a session, whatever its status, `editStep` with a parameters-carrying updates
record replaces that step's parameter mapping by the one in the updates,
leaving its status unchanged. -/
theorem C6_amended (st : AppState) (queryId stepId : String) (ps : Params)
    (i j : Nat) (q : GeoQuery) (s : WorkflowStep)
    (hq : st.queries[i]? = some q) (hqid : q.id = queryId)
    (hs : q.steps[j]? = some s) (hsid : s.id = stepId) :
    ∃ q' s',
      (handleEditStep st queryId stepId (paramsOnlyUpdates ps)).queries[i]? = some q' ∧
      q'.steps[j]? = some s' ∧
      s'.parameters = ps ∧
      s'.status = s.status := by
  refine ⟨editStepInQuery stepId (paramsOnlyUpdates ps) q,
    applyUpdates s (paramsOnlyUpdates ps), ?_, ?_, rfl, rfl⟩
  · simp [handleEditStep, List.getElem?_map, hq, hqid]
  · simp [editStepInQuery, List.getElem?_map, hs, hsid]

/-- Witness for C6 amended on a completed step: the edit goes through. -/
theorem C6_amended_witness :
    ∃ q' s',
      (handleEditStep wStateCompleted "q1" "s1"
        (paramsOnlyUpdates [("p", ParamValue.num 2)])).queries[0]? = some q' ∧
      q'.steps[0]? = some s' ∧
      s'.parameters = [("p", ParamValue.num 2)] ∧
      s'.status = wStepCompleted.status :=
  C6_amended wStateCompleted "q1" "s1" [("p", ParamValue.num 2)] 0 0
    wQueryCompleted wStepCompleted (by decide) (by decide) (by decide) (by decide)

/-- C7 counterexample: run scenario A to completion, so the single session
has status completed; applying `editStep` to one of its steps still changes
the session, so a completed session is not immutable. -/
theorem C7_counterexample :
    ((runEvents initState scenarioAEvents).queries.map GeoQuery.status) =
      [SessionStatus.completed] ∧
    (handleEditStep (runEvents initState scenarioAEvents) "q1" "step-1"
        (paramsOnlyUpdates [("resolution", ParamValue.str "60m")])).queries ≠
      (runEvents initState scenarioAEvents).queries := by
  refine ⟨by decide, by decide⟩

/-- C7 amended: a completed session is not immutable (editStep and
executeStep still mutate its steps), but every operation preserves each
session's id, query text and creation timestamp, and a session whose status
is completed keeps status completed. -/
theorem C7_amended (st : AppState) (e : Event) (i : Nat) (q : GeoQuery)
    (hq : st.queries[i]? = some q) :
    ∃ q', (applyEvent st e).queries[i]? = some q' ∧ SessionPreserved q q' := by
  cases e with
  | submit id ts text =>
    refine ⟨q, ?_, sessionPreserved_refl q⟩
    have hlt : i < st.queries.length := (List.getElem?_eq_some.mp hq).1
    simp only [applyEvent, handleSubmitQuery]
    rw [List.getElem?_append_left hlt]
    exact hq
  | edit qId sId u =>
    refine getElem?_map_preserved _ (fun q0 => ?_) st.queries i q hq
    by_cases h : q0.id = qId
    · simp only [h, if_pos]
      exact sessionPreserved_editStepInQuery sId u q0
    · simp only [h, if_neg, ite_false]
      exact sessionPreserved_refl q0
  | execStep qId sId => exact execStep_getElem?_preserved st qId sId i q hq
  | stepDone qId sId =>
    simp only [applyEvent]
    split
    · refine getElem?_map_preserved _ (fun q0 => ?_) st.queries i q hq
      by_cases h : q0.id = qId
      · simp only [h, if_pos]
        exact sessionPreserved_setStepCompleted sId q0
      · simp only [h, if_neg, ite_false]
        exact sessionPreserved_refl q0
    · exact ⟨q, hq, sessionPreserved_refl q⟩
  | execWorkflow qId =>
    simp only [applyEvent, handleExecuteWorkflow]
    cases hfind : st.queries.find? (fun q => q.id == qId) with
    | none => exact ⟨q, hq, sessionPreserved_refl q⟩
    | some q0 => exact execFold_getElem?_preserved qId _ st i q hq
  | workflowDone qId text lId =>
    simp only [applyEvent]
    split
    · refine getElem?_map_preserved _ (fun q0 => ?_) st.queries i q hq
      by_cases h : q0.id = qId
      · rw [if_pos h]
        exact ⟨rfl, rfl, rfl, fun _ => rfl⟩
      · rw [if_neg h]
        exact sessionPreserved_refl q0
    · exact ⟨q, hq, sessionPreserved_refl q⟩

/-- Witness for C7 amended: an edit on the completed session preserves its
identity fields and completed status. -/
theorem C7_amended_witness :
    ∃ q', (applyEvent wStateCompleted
        (Event.edit "q1" "s1" (paramsOnlyUpdates []))).queries[0]? = some q' ∧
      SessionPreserved wQueryCompleted q' :=
  C7_amended wStateCompleted (Event.edit "q1" "s1" (paramsOnlyUpdates [])) 0
    wQueryCompleted (by decide)

/-- C10: `editStep` and the synchronous part of `executeStep` are
frame-preserving: the session-list length is unchanged, the map-layer list is
unchanged, sessions whose id differs from the target query id are unchanged,
and inside any session every step whose id differs from the target step id is
unchanged. -/
theorem C10_frame (st : AppState) (queryId stepId : String) (u : StepUpdates) :
    ((handleEditStep st queryId stepId u).queries.length = st.queries.length ∧
     (handleExecuteStep st queryId stepId).queries.length = st.queries.length) ∧
    ((handleEditStep st queryId stepId u).mapLayers = st.mapLayers ∧
     (handleExecuteStep st queryId stepId).mapLayers = st.mapLayers) ∧
    (∀ (i : Nat) (q : GeoQuery), st.queries[i]? = some q → q.id ≠ queryId →
      (handleEditStep st queryId stepId u).queries[i]? = some q ∧
      (handleExecuteStep st queryId stepId).queries[i]? = some q) ∧
    (∀ (i : Nat) (q : GeoQuery), st.queries[i]? = some q →
      ∀ (j : Nat) (s : WorkflowStep), q.steps[j]? = some s → s.id ≠ stepId →
      (∃ q', (handleEditStep st queryId stepId u).queries[i]? = some q' ∧
        q'.steps[j]? = some s) ∧
      (∃ q', (handleExecuteStep st queryId stepId).queries[i]? = some q' ∧
        q'.steps[j]? = some s)) := by
  refine ⟨⟨by simp [handleEditStep], by simp [handleExecuteStep]⟩, ⟨rfl, rfl⟩, ?_, ?_⟩
  · intro i q hq hne
    constructor
    · simp [handleEditStep, List.getElem?_map, hq, hne]
    · simp [handleExecuteStep, List.getElem?_map, hq, hne]
  · intro i q hq j s hs hne
    constructor
    · by_cases hqid : q.id = queryId
      · refine ⟨editStepInQuery stepId u q, ?_, ?_⟩
        · simp [handleEditStep, List.getElem?_map, hq, hqid]
        · simp [editStepInQuery, List.getElem?_map, hs, hne]
      · refine ⟨q, ?_, hs⟩
        simp [handleEditStep, List.getElem?_map, hq, hqid]
    · by_cases hqid : q.id = queryId
      · refine ⟨setStepExecuting stepId q, ?_, ?_⟩
        · simp [handleExecuteStep, List.getElem?_map, hq, hqid]
        · simp [setStepExecuting, List.getElem?_map, hs, hne]
      · refine ⟨q, ?_, hs⟩
        simp [handleExecuteStep, List.getElem?_map, hq, hqid]

/-- Witness for C10 on a state whose session and step do not match the
targeted ids: everything is unchanged. -/
theorem C10_frame_witness :
    (handleEditStep wState "zz" "zz" (paramsOnlyUpdates [])).queries[0]? = some wQuery ∧
    (handleExecuteStep wState "zz" "zz").queries[0]? = some wQuery ∧
    (handleEditStep wState "zz" "zz" (paramsOnlyUpdates [])).mapLayers = wState.mapLayers := by
  have h := C10_frame wState "zz" "zz" (paramsOnlyUpdates [])
  have h3 := h.2.2.1 0 wQuery (by decide) (by decide)
  exact ⟨h3.1, h3.2, h.2.1.1⟩

end GeoFlow
